import Mathlib

/-!
Verification of the catalog-feed reconciliation engine: a shallow embedding of
the eligibility filter, taxonomy path resolver, reconciliation index, diff
calculator and batch scheduler, with theorems settling the frozen claims.
Strings in the feed are ASCII, so the JavaScript toLowerCase and trim calls
are modelled by ASCII lower-casing and ASCII whitespace trimming.
-/

namespace QGold

/-- Models the JavaScript toLowerCase call (ASCII data). -/
def jsToLower (s : String) : String := ⟨s.data.map Char.toLower⟩

/-- ASCII whitespace test used by the trim model. -/
def wsp (ch : Char) : Bool := ch == ' ' || ch == '\t' || ch == '\n' || ch == '\r'

/-- Models the JavaScript trim call: drop whitespace at both ends. -/
def jsTrim (s : String) : String :=
  ⟨((s.data.dropWhile wsp).reverse.dropWhile wsp).reverse⟩

/-- Helper for the substring test: does sub occur contiguously in the list, at any position. -/
def subSomewhere (sub : List Char) : List Char → Bool
  | [] => sub.isEmpty
  | x :: xs => sub.isPrefixOf (x :: xs) || subSomewhere sub xs

/-- Models the JavaScript includes call: sub occurs contiguously inside s. -/
def hasSub (s sub : String) : Bool := subSomewhere sub.data s.data

/-- One row of the incoming feed, with the fields the engine reads; absent CSV
columns are none (the CSV reader drops empty cells). -/
structure CsvItem where
  Item : Option String := none
  Description : Option String := none
  MSRP : Option String := none
  ContractPrice : Option String := none
  Qty_Avail : Option String := none
  Status : Option String := none
  Categories : Option String := none
  ProductLine : Option String := none
  Item_Type : Option String := none
deriving DecidableEq

/-- A variant sub-record of a remote product. -/
structure Variant where
  sku : Option String := none
  price : Option String := none
  inventory_quantity : Option Int := none
deriving DecidableEq

/-- A remote product as returned by the remote catalog. -/
structure Product where
  title : String
  status : String
  variants : List Variant := []
deriving DecidableEq

/-- Models JavaScript truthiness of a possibly-absent string. -/
def jsTruthy (o : Option String) : Bool :=
  match o with
  | some s => !(s == "")
  | none => false

/-- Models the JavaScript expression a OR defaultValue over a possibly-absent
string: the default is taken when the value is absent or empty. -/
def jsOrD (a : Option String) (d : String) : String :=
  match a with
  | some s => if s = "" then d else s
  | none => d

/-- Models the JavaScript expression a OR b over possibly-absent strings. -/
def jsOr (a b : Option String) : Option String :=
  match a with
  | some s => if s = "" then b else some s
  | none => b

/-- Numeric value of a run of decimal digits. -/
def digitsToNat (l : List Char) : Nat :=
  l.foldl (fun acc ch => acc * 10 + (ch.toNat - 48)) 0

/-- Models the JavaScript parseFloat call on the plain decimal strings this feed
carries (optional sign, integer part, optional fraction; trailing junk ignored;
none models NaN). Exponent notation never occurs in the feed and is not modelled. -/
def jsParseFloatQ (s : String) : Option ℚ :=
  let l := (jsTrim s).data
  let signNeg : Bool := match l with | '-' :: _ => true | _ => false
  let rest : List Char :=
    match l with
    | '-' :: t => t
    | '+' :: t => t
    | t => t
  let ip := rest.takeWhile Char.isDigit
  let r1 := rest.dropWhile Char.isDigit
  let fp : List Char :=
    match r1 with
    | '.' :: t => t.takeWhile Char.isDigit
    | _ => []
  if ip.isEmpty && fp.isEmpty then none
  else
    let mag : ℚ := (digitsToNat ip : ℚ) + (digitsToNat fp : ℚ) / ((10 : ℚ) ^ fp.length)
    some (if signNeg then -mag else mag)

/-- Models the JavaScript parseInt call (radix 10): optional sign then leading
digits; none models NaN. -/
def jsParseIntOpt (o : Option String) : Option Int :=
  match o with
  | none => none
  | some s =>
    let l := (jsTrim s).data
    let signNeg : Bool := match l with | '-' :: _ => true | _ => false
    let rest : List Char :=
      match l with
      | '-' :: t => t
      | '+' :: t => t
      | t => t
    let ds := rest.takeWhile Char.isDigit
    if ds.isEmpty then none
    else some (if signNeg then -(digitsToNat ds : Int) else (digitsToNat ds : Int))

/-- The configured acceptable product lines of ProductProcessor.filterProducts. -/
def productLines1 : List String :=
  ["Breast Cancer Awareness", "Colorful Collections", "Dainty Designs",
   "Diamond Fascination", "Earring Jackets", "Fancy Diamond Hoops",
   "Fine Diamond Jewelry", "IBGoodman", "Infinity", "Inverness",
   "Italian Gold", "Lab Grown Diamond Jewelry", "Lockets", "Madi K",
   "Pearls", "Premier", "Sea Inspired Silver Jewelry", "Sideways Crosses",
   "Simply Starz", "South Sea and Tahitian Pearls", "Stackable Expressions",
   "Two Stone Collection", "Vibrant", "Wedding Bands USA"]

/-- The category-line check of ProductProcessor.filterProducts (the identical
logic appears in ProductAnalyzer.filterProducts): the normalized record label
must equal a lower-cased configured line or contain it as a substring. -/
def lineMatches (lines : List String) (productLine : String) : Bool :=
  lines.any fun line =>
    let lineLower := jsToLower line
    productLine == lineLower || hasSub productLine lineLower

/-- Normalization applied to the record label before the line check:
or-empty, lower-case, then trim, exactly as in the source. -/
def normalizeLine (o : Option String) : String := jsTrim (jsToLower (o.getD ""))

/-- Normalized status label, as computed at the top of filterProducts. -/
def statusNorm (c : CsvItem) : String := jsTrim (jsToLower (c.Status.getD ""))

/-- The eligibility predicate of ProductProcessor.filterProducts, clause for
clause: discontinued check, MSRP bounds on ContractPrice, product-line check,
exclusion substrings, then the quality check on Item and Description. -/
def productPasses (c : CsvItem) : Bool :=
  if statusNorm c == "discontinued" then false
  else
    let msrpOpt : Option ℚ :=
      match c.ContractPrice with
      | some s => jsParseFloatQ s
      | none => none
    match msrpOpt with
    | none => false
    | some msrp =>
      if msrp < (100 : ℚ) ∨ (1000 : ℚ) < msrp then false
      else
        let productLine := normalizeLine c.ProductLine
        if !(lineMatches productLines1 productLine) then false
        else
          let categories := jsToLower (c.Categories.getD "")
          if hasSub categories "finding" || hasSub categories "mounting" then false
          else
            let itemType := jsToLower (c.Item_Type.getD "")
            if hasSub itemType "finding" || hasSub itemType "mounting" then false
            else
              let ttl := jsToLower (c.Description.getD "")
              if hasSub ttl "engraveable" then false
              else if hasSub productLine "personalized" then false
              else if hasSub categories "personalized" then false
              else if !(jsTruthy c.Item) || !(jsTruthy c.Description) then false
              else true

/-- The list-level filter of ProductProcessor.filterProducts. -/
def filterProducts (l : List CsvItem) : List CsvItem := l.filter productPasses

/-- Association-list model of a JavaScript Map: set conses the new binding in
front, so get (which returns the first hit) sees the latest value for a key,
matching the overwrite semantics of Map.set. -/
def mapSet {α : Type} (m : List (String × α)) (k : String) (v : α) : List (String × α) :=
  (k, v) :: m

/-- Lookup in the association-list model of a JavaScript Map. -/
def mapGet {α : Type} (m : List (String × α)) (k : String) : Option α :=
  (m.find? (fun kv => kv.1 == k)).map (fun kv => kv.2)

/-- Splits a character list at every separator character, modelling the
JavaScript String split with a character-class regex (consecutive separators
produce empty fields, as in JavaScript). -/
def splitChars (p : Char → Bool) : List Char → List (List Char)
  | [] => [[]]
  | ch :: rest =>
    if p ch then [] :: splitChars p rest
    else
      match splitChars p rest with
      | [] => [[ch]]
      | grp :: grps => (ch :: grp) :: grps

/-- String-level wrapper for splitChars. -/
def splitStr (p : Char → Bool) (s : String) : List String :=
  (splitChars p s.data).map (fun l => ⟨l⟩)

/-- Models the global single-character regex replace that deletes every
backslash from the path. -/
def stripBackslashes (s : String) : String := ⟨s.data.filter (fun ch => !(ch == '\\'))⟩

/-- The four separator characters of the path-splitting regex in
findBestCategoryMatch (backslash, forward slash, greater-than, pipe). -/
def isSep4 (ch : Char) : Bool := ch == '\\' || ch == '/' || ch == '>' || ch == '|'

/-- The separators that can still occur after backslashes have been stripped. -/
def isSep3 (ch : Char) : Bool := ch == '/' || ch == '>' || ch == '|'

/-- The fixed category vocabulary of ShopifyClient, in insertion order
(JavaScript Map iteration order is insertion order). -/
def categoryMap : List (String × String) :=
  [("anklets", "gid://shopify/TaxonomyCategory/aa-6-1"),
   ("anklet", "gid://shopify/TaxonomyCategory/aa-6-1"),
   ("body jewelry", "gid://shopify/TaxonomyCategory/aa-6-2"),
   ("body", "gid://shopify/TaxonomyCategory/aa-6-2"),
   ("bracelets", "gid://shopify/TaxonomyCategory/aa-6-3"),
   ("bracelet", "gid://shopify/TaxonomyCategory/aa-6-3"),
   ("brooches", "gid://shopify/TaxonomyCategory/aa-6-4"),
   ("brooch", "gid://shopify/TaxonomyCategory/aa-6-4"),
   ("lapel pins", "gid://shopify/TaxonomyCategory/aa-6-4"),
   ("lapel pin", "gid://shopify/TaxonomyCategory/aa-6-4"),
   ("charms", "gid://shopify/TaxonomyCategory/aa-6-5"),
   ("charm", "gid://shopify/TaxonomyCategory/aa-6-5"),
   ("pendants", "gid://shopify/TaxonomyCategory/aa-6-5"),
   ("pendant", "gid://shopify/TaxonomyCategory/aa-6-5"),
   ("earrings", "gid://shopify/TaxonomyCategory/aa-6-6"),
   ("earring", "gid://shopify/TaxonomyCategory/aa-6-6"),
   ("jewelry sets", "gid://shopify/TaxonomyCategory/aa-6-7"),
   ("jewelry set", "gid://shopify/TaxonomyCategory/aa-6-7"),
   ("sets", "gid://shopify/TaxonomyCategory/aa-6-7"),
   ("set", "gid://shopify/TaxonomyCategory/aa-6-7"),
   ("necklaces", "gid://shopify/TaxonomyCategory/aa-6-8"),
   ("necklace", "gid://shopify/TaxonomyCategory/aa-6-8"),
   ("chain necklaces", "gid://shopify/TaxonomyCategory/aa-6-8"),
   ("chain necklace", "gid://shopify/TaxonomyCategory/aa-6-8"),
   ("rings", "gid://shopify/TaxonomyCategory/aa-6-9"),
   ("ring", "gid://shopify/TaxonomyCategory/aa-6-9"),
   ("smart watches", "gid://shopify/TaxonomyCategory/aa-6-12"),
   ("smart watch", "gid://shopify/TaxonomyCategory/aa-6-12"),
   ("watch accessories", "gid://shopify/TaxonomyCategory/aa-6-10"),
   ("watch accessory", "gid://shopify/TaxonomyCategory/aa-6-10"),
   ("watch bands", "gid://shopify/TaxonomyCategory/aa-6-10-1"),
   ("watch band", "gid://shopify/TaxonomyCategory/aa-6-10-1"),
   ("watch stickers", "gid://shopify/TaxonomyCategory/aa-6-10-2"),
   ("watch decals", "gid://shopify/TaxonomyCategory/aa-6-10-2"),
   ("watch stickers & decals", "gid://shopify/TaxonomyCategory/aa-6-10-2"),
   ("watch winders", "gid://shopify/TaxonomyCategory/aa-6-10-3"),
   ("watch winder", "gid://shopify/TaxonomyCategory/aa-6-10-3"),
   ("watches", "gid://shopify/TaxonomyCategory/aa-6-11"),
   ("watch", "gid://shopify/TaxonomyCategory/aa-6-11"),
   ("chains", "gid://shopify/TaxonomyCategory/aa-6-8"),
   ("chain", "gid://shopify/TaxonomyCategory/aa-6-8"),
   ("rope chains", "gid://shopify/TaxonomyCategory/aa-6-8"),
   ("rope chain", "gid://shopify/TaxonomyCategory/aa-6-8"),
   ("curb chains", "gid://shopify/TaxonomyCategory/aa-6-8"),
   ("curb chain", "gid://shopify/TaxonomyCategory/aa-6-8"),
   ("cable chains", "gid://shopify/TaxonomyCategory/aa-6-8"),
   ("cable chain", "gid://shopify/TaxonomyCategory/aa-6-8")]

/-- The designated default category for unmatched paths. -/
def defaultJewelryCategory : String := "gid://shopify/TaxonomyCategory/aa-6-8"

/-- Per-segment matching of findBestCategoryMatch: direct vocabulary hit first,
then bidirectional substring containment in vocabulary insertion order. -/
def termHit (t : String) : Option String :=
  match mapGet categoryMap t with
  | some id => some id
  | none => (categoryMap.find? (fun kv => hasSub t kv.1 || hasSub kv.1 t)).map (fun kv => kv.2)

/-- The segment loop of findBestCategoryMatch: first segment with a hit wins. -/
def firstHit : List String → Option String
  | [] => none
  | t :: ts =>
    match termHit t with
    | some id => some id
    | none => firstHit ts

/-- The generic body of findBestCategoryMatch, parameterized by the separator
predicate used for splitting and by whether backslashes are stripped during
normalization, so the code path and its variants share one skeleton. -/
def resolvePath (strip : Bool) (sep : Char → Bool) (categoryPath : String) : Option String :=
  if categoryPath = "" then none
  else
    let lowered := jsToLower (jsTrim categoryPath)
    let cleanPath := if strip then stripBackslashes lowered else lowered
    let categoryTerms := ((splitStr sep cleanPath).map jsTrim).filter (fun t => !(t == ""))
    match firstHit categoryTerms.reverse with
    | some id => some id
    | none => (categoryMap.find? (fun kv => hasSub cleanPath kv.1)).map (fun kv => kv.2)

/-- ShopifyClient.findBestCategoryMatch, line for line: trim, lower-case,
delete every backslash, split on the four-character separator class, trim and
drop empty segments, walk the segments reversed through termHit, then fall
back to a substring search of the whole cleaned path. -/
def findBestCategoryMatch (categoryPath : String) : Option String :=
  resolvePath true isSep4 categoryPath

/-- Modelled from the spec: the resolver the claim describes, which keeps
backslashes in the normalized path and splits on all four separator
characters, so backslash-delimited components become distinct segments. -/
def findBestCategoryMatchSpec (categoryPath : String) : Option String :=
  resolvePath false isSep4 categoryPath

/-- The amended description of the code: backslashes are deleted during
normalization and splitting happens on the three remaining separators only. -/
def findBestCategoryMatchAmended (categoryPath : String) : Option String :=
  resolvePath true isSep3 categoryPath

/-- The candidate-path loop of getCategoryId: first resolvable path wins. -/
def firstPathMatch : List String → Option String
  | [] => none
  | p :: rest =>
    match findBestCategoryMatch p with
    | some id => some id
    | none => firstPathMatch rest

/-- ShopifyClient.getCategoryId: no Categories field means the default; else
split the field on semicolons and return the first resolvable match, falling
back to the default category. -/
def getCategoryId (c : CsvItem) : String :=
  match c.Categories with
  | none => defaultJewelryCategory
  | some cats =>
    if cats = "" then defaultJewelryCategory
    else
      match firstPathMatch (splitStr (fun ch => ch == ';') cats) with
      | some id => id
      | none => defaultJewelryCategory

/-- Floor of a rational, computed from its normalized numerator and
denominator with flooring integer division. -/
def ratFloor (q : ℚ) : ℤ := Int.fdiv q.num (q.den : ℤ)

/-- Rounding to two decimal places, modelling the numeric value produced by
the toFixed call inside parsePrice (ties round up; the feed never hits a tie). -/
def roundTo2 (q : ℚ) : ℚ := ((ratFloor (q * 100 + 1 / 2) : ℚ)) / 100

/-- Numeric value of ShopifyClient.parsePrice: falsy input yields 0 (the
string 0.00), otherwise every character except digits, dot and minus is
stripped, the result parsed, NaN mapped to 0, and the value rounded to two
decimals. Only the parsed value of the returned string is consumed by the
diff calculator, so the model carries the value rather than the string. -/
def parsePriceQ (o : Option String) : ℚ :=
  match o with
  | none => 0
  | some s =>
    if s = "" then 0
    else
      let stripped : String := ⟨s.data.filter (fun ch => ch.isDigit || ch == '.' || ch == '-')⟩
      match jsParseFloatQ stripped with
      | none => 0
      | some q => roundTo2 q

/-- JavaScript strict inequality on two possibly-NaN numbers: NaN compares
unequal to everything, including itself. -/
def jsNeqNum (a b : Option ℚ) : Bool :=
  match a, b with
  | some x, some y => !(x == y)
  | _, _ => true

/-- Inventory value of the incoming record: parseInt of Qty_Avail with falsy
results (including NaN) defaulting to 0. -/
def csvInventoryVal (c : CsvItem) : Int := (jsParseIntOpt c.Qty_Avail).getD 0

/-- First-variant inventory of a remote product, when present. -/
def remoteInventory (p : Product) : Option Int :=
  p.variants.head?.bind (fun v => v.inventory_quantity)

/-- First-variant price string of a remote product, when present. -/
def remotePrice (p : Product) : Option String :=
  p.variants.head?.bind (fun v => v.price)

/-- Appends a tag when its condition fired, modelling changes.push. -/
def tagIf (b : Bool) (s : String) : List String := if b then [s] else []

/-- ShopifyClient.doesProductNeedUpdate: the ordered list of changed-field
tags. Title is compared byte for byte; price only when the remote price is
truthy; inventory only when the remote first variant carries one; status
through the two-valued active-or-draft normalization. hasChanges of the
source is exactly the nonemptiness of this list. -/
def doesProductNeedUpdate (c : CsvItem) (p : Product) : List String :=
  let csvTitle := jsOrD c.Description (jsOrD c.Item "Untitled Product")
  let titleC : Bool := !(p.title == csvTitle)
  let csvPriceQ : ℚ := parsePriceQ (jsOr c.MSRP c.ContractPrice)
  let priceC : Bool :=
    match remotePrice p with
    | none => false
    | some ps => if ps = "" then false else jsNeqNum (jsParseFloatQ ps) (some csvPriceQ)
  let invC : Bool :=
    match remoteInventory p with
    | none => false
    | some q => !(q == csvInventoryVal c)
  let csvStatus : String := if c.Status == some "Active" then "active" else "draft"
  let statusC : Bool := !(p.status == csvStatus)
  tagIf titleC "title" ++ tagIf priceC "price" ++ tagIf invC "inventory" ++ tagIf statusC "status"

/-- Modelled from the spec: the inventory comparison the claim describes, in
which a side with no inventory value is compared as 0. -/
def specInventoryDiffers (c : CsvItem) (p : Product) : Bool :=
  !((remoteInventory p).getD 0 == csvInventoryVal c)

/-- The index-building loop of processProductsFromCSV: every product is
indexed by lower-cased title, and by the lower-cased sku of each of its
variants when that sku is truthy. The first component is the sku index, the
second the title index. -/
def buildIndexes (remotes : List Product) : List (String × Product) × List (String × Product) :=
  remotes.foldl
    (fun maps p =>
      let tt := mapSet maps.2 (jsToLower p.title) p
      let sk := p.variants.foldl
        (fun m v =>
          match v.sku with
          | some s => if s = "" then m else mapSet m (jsToLower s) p
          | none => m)
        maps.1
      (sk, tt))
    ([], [])

/-- The lookup policy of categorizeProducts: the sku index is consulted first
and wins; the title index is consulted only when the sku lookup misses. -/
def lookupExisting (sk tt : List (String × Product)) (c : CsvItem) : Option Product :=
  let skuHit : Option Product :=
    match c.Item with
    | some it => if jsToLower it = "" then none else mapGet sk (jsToLower it)
    | none => none
  match skuHit with
  | some p => some p
  | none =>
    let t := jsToLower (jsOrD c.Description (jsOrD c.Item ""))
    if t = "" then none else mapGet tt t

/-- ShopifyClient.categorizeProducts: each record either joins the create
list (no match), joins the update list (match, updates enabled, nonempty
diff), or is dropped (match with empty diff, or updates disabled). -/
def categorizeProducts (csvData : List CsvItem) (sk tt : List (String × Product))
    (enableUpdates : Bool) : List CsvItem × List (CsvItem × Product × List String) :=
  match csvData with
  | [] => ([], [])
  | c :: rest =>
    let r := categorizeProducts rest sk tt enableUpdates
    match lookupExisting sk tt c with
    | some p =>
      if enableUpdates then
        let ch := doesProductNeedUpdate c p
        if ch.isEmpty then r else (r.1, (c, p, ch) :: r.2)
      else r
    | none => (c :: r.1, r.2)

/-- Fuel-indexed worker for chunking; the fuel is always instantiated with the
length of the list, which suffices because every step drops at least one
element when the chunk size is positive. -/
def chunkAux {α : Type} (B : Nat) : Nat → List α → List (List α)
  | 0, _ => []
  | _, [] => []
  | Nat.succ fuel, x :: xs => (x :: xs).take B :: chunkAux B fuel ((x :: xs).drop B)

/-- The batch-partitioning loop shared by processBatchedProducts and
processProductsFromCSV: successive slices of batchSize items, in input order. -/
def chunk {α : Type} (B : Nat) (l : List α) : List (List α) := chunkAux B l.length l

/-- Fuel-indexed worker counting the pacing delays of the window loop in
processBatchedProducts: one delay per window iteration whose starting index
plus maxConcurrentBatches is still below the number of batches. -/
def delayCountAux {α : Type} (maxC : Nat) : Nat → List α → Nat
  | 0, _ => 0
  | _, [] => 0
  | Nat.succ fuel, x :: xs =>
    (if maxC < (x :: xs).length then 1 else 0) + delayCountAux maxC fuel ((x :: xs).drop maxC)

/-- Number of inter-window pacing delays inserted by the window loop of
processBatchedProducts over a given batch list. -/
def delayCount {α : Type} (maxC : Nat) (l : List α) : Nat := delayCountAux maxC l.length l

/-- Result record of one item inside processBatchDirect: the success flag, the
item tag carried by the result object, and the error message on failure. -/
structure DirectResult where
  success : Bool
  itemTag : Option String
  err : Option String
deriving DecidableEq

/-- The per-item body of processBatchDirect, with the remote create call
abstracted as an oracle from the item to its outcome (the call is the only
external effect; everything else in the body is mapping and logging). The
catch branch turns a failure into a success-false record carrying the item
tag, so the settled result of every item is always produced. -/
def runCreateItem (co : CsvItem → Except String Product) (c : CsvItem) : DirectResult :=
  match co c with
  | Except.ok _ => { success := true, itemTag := c.Item, err := none }
  | Except.error e => { success := false, itemTag := some (jsOrD c.Item "Unknown"), err := some e }

/-- The settled results of one processBatchDirect batch: every item is mapped
to its own outcome, independently of its siblings, as Promise.allSettled over
the per-item promises produces. -/
def processBatchDirectResults (co : CsvItem → Except String Product)
    (items : List CsvItem) : List DirectResult :=
  items.map (runCreateItem co)

/-- A planned operation after categorization, tagged with its action. -/
inductive ProcEntry where
  | create (c : CsvItem)
  | update (c : CsvItem) (p : Product) (changes : List String)
deriving DecidableEq

/-- Settled outcome of one planned operation. -/
inductive ProcOutcome where
  | created (p : Product)
  | updated (p : Product)
  | failed (msg : String)
deriving DecidableEq

/-- Executes one planned operation against the remote-call oracles, with the
catch branch of processBatchParallelWithUpdates mapping a failure to an
error outcome for that item alone. -/
def runEntry (co : CsvItem → Except String Product)
    (uo : CsvItem → Product → List String → Except String Product) : ProcEntry → ProcOutcome
  | ProcEntry.create c =>
    match co c with
    | Except.ok p => ProcOutcome.created p
    | Except.error e => ProcOutcome.failed e
  | ProcEntry.update c p ch =>
    match uo c p ch with
    | Except.ok p2 => ProcOutcome.updated p2
    | Except.error e => ProcOutcome.failed e

/-- Recognizer for created outcomes. -/
def isCreatedO : ProcOutcome → Bool
  | ProcOutcome.created _ => true
  | _ => false

/-- Recognizer for updated outcomes. -/
def isUpdatedO : ProcOutcome → Bool
  | ProcOutcome.updated _ => true
  | _ => false

/-- Recognizer for failed outcomes. -/
def isFailedO : ProcOutcome → Bool
  | ProcOutcome.failed _ => true
  | _ => false

/-- The aggregate counters of processProductsFromCSV. -/
structure RunReport where
  total : Nat
  created : Nat
  updated : Nat
  skipped : Nat
  errors : Nat
deriving DecidableEq

/-- The result-aggregation step run after one batch settles, mirroring the
forEach over the allSettled results: each outcome bumps exactly one of the
created, updated, or errors counters. No branch of the source ever touches
the skipped counter. -/
def addBatchCounts (r : RunReport) (outs : List ProcOutcome) : RunReport :=
  { r with
    created := r.created + outs.countP isCreatedO,
    updated := r.updated + outs.countP isUpdatedO,
    errors := r.errors + outs.countP isFailedO }

/-- ShopifyClient.processProductsFromCSV with dryRun disabled and the two
remote calls abstracted as oracles: build the indexes, categorize, concatenate
the create entries before the update entries, partition into batches of
batchSize, and fold the per-batch settled outcomes into the report, which
starts with total set to the input size and every bucket at zero. -/
def runProcess (csvData : List CsvItem) (remotes : List Product) (enableUpdates : Bool)
    (batchSize : Nat) (co : CsvItem → Except String Product)
    (uo : CsvItem → Product → List String → Except String Product) : RunReport :=
  let maps := buildIndexes remotes
  let cats := categorizeProducts csvData maps.1 maps.2 enableUpdates
  let allEntries :=
    cats.1.map ProcEntry.create ++ cats.2.map (fun x => ProcEntry.update x.1 x.2.1 x.2.2)
  let batches := chunk batchSize allEntries
  batches.foldl
    (fun r batch => addBatchCounts r (batch.map (runEntry co uo)))
    { total := csvData.length, created := 0, updated := 0, skipped := 0, errors := 0 }

/-- Modelled from the spec: the bidirectional category-line check the claim
describes, in which the record label may also be a substring of a configured
line (and configured lines are trimmed as well as case-folded). -/
def lineMatchesSpec (lines : List String) (productLine : String) : Bool :=
  lines.any fun line =>
    let l := jsTrim (jsToLower line)
    productLine == l || hasSub productLine l || hasSub l productLine

/-- The record of the C1 failing input: it matches the remote product below by
sku, and the diff calculator reports no changes for the pair. -/
def csvC1 : CsvItem := { Item := some "A1", Description := some "Prod", Status := some "Active" }

/-- The remote counterpart of csvC1: same title, active, variant sku A1, no
price and no inventory on the variant. -/
def remC1 : Product := { title := "Prod", status := "active", variants := [{ sku := some "A1" }] }

/-- Create oracle that is never consulted in the C1 run. -/
def coNone : CsvItem → Except String Product := fun _ => Except.error "unreachable"

/-- Update oracle that is never consulted in the C1 run. -/
def uoNone : CsvItem → Product → List String → Except String Product :=
  fun _ _ _ => Except.error "unreachable"

/-- First record of the C6 witness batch; the oracle fails on it. -/
def cW1 : CsvItem := { Item := some "X1", Description := some "Alpha" }

/-- Second record of the C6 witness batch; the oracle succeeds on it. -/
def cW2 : CsvItem := { Item := some "X2", Description := some "Beta" }

/-- Product returned by the C6 witness oracle on success. -/
def prodW : Product := { title := "Alpha", status := "active" }

/-- The C6 witness oracle: fails exactly on the record with Item X1. -/
def coW : CsvItem → Except String Product :=
  fun c => if c.Item = some "X1" then Except.error "boom" else Except.ok prodW

/-- Remote product matched by sku in the C4 witness. -/
def remA : Product := { title := "Widget", status := "active", variants := [{ sku := some "A1" }] }

/-- Remote product matched by display name in the C4 witness. -/
def remB : Product := { title := "Prod", status := "active" }

/-- Incoming record of the C4 witness: its sku matches remA while its display
name matches remB. -/
def cC4 : CsvItem := { Item := some "A1", Description := some "Prod" }

/-- Incoming record of the C5 counterexample: inventory 5 on the feed side. -/
def cC5 : CsvItem :=
  { Item := some "B1", Description := some "P", Qty_Avail := some "5", Status := some "Active" }

/-- Remote product of the C5 counterexample: first variant with no inventory. -/
def pC5 : Product := { title := "P", status := "active", variants := [{ sku := some "b1" }] }

/-- The sample record of the repository test for category mapping, carrying the
two semicolon-joined category paths of claim C9. -/
def cC9 : CsvItem :=
  { Item := some "TEST-123",
    Description := some "14K Rose Gold Chain Necklace",
    Categories := some "\\Jewelry\\Necklaces\\Chain Necklaces\\Rope Chain Necklaces;\\Jewelry\\Chains\\Rope Chains\\Rope Chain" }

/-- Eligible-looking record with a discontinued status, for the C10 witness. -/
def cC10 : CsvItem :=
  { Item := some "T1", Description := some "Thing", ContractPrice := some "500",
    ProductLine := some "Pearls", Status := some " Discontinued " }

/-- Boolean substring occurrence agrees with the propositional infix relation. -/
theorem subSomewhere_iff (sub l : List Char) : subSomewhere sub l = true ↔ sub <:+: l := by
  induction l with
  | nil => simp [subSomewhere, List.isEmpty_iff]
  | cons x xs ih => simp [subSomewhere, List.infix_cons_iff, ih]

/-- Chunking the empty list yields no batches, whatever the fuel. -/
theorem chunkAux_nil {α : Type} (B fuel : Nat) : chunkAux (α := α) B fuel [] = [] := by
  cases fuel <;> rfl

/-- The delay counter of the window loop is zero on an empty batch list. -/
theorem delayCountAux_nil {α : Type} (maxC fuel : Nat) : delayCountAux (α := α) maxC fuel [] = 0 := by
  cases fuel <;> rfl

/-- The number of batches produced by the partitioning loop is the ceiling of
the item count divided by the batch size, for any sufficient fuel. -/
theorem chunkAux_length {α : Type} (B : Nat) (hB : 0 < B) :
    ∀ (fuel : Nat) (l : List α), l.length ≤ fuel →
      (chunkAux B fuel l).length = (l.length + B - 1) / B := by
  intro fuel
  induction fuel with
  | zero =>
    intro l h
    have hl : l = [] := List.length_eq_zero.1 (Nat.le_zero.1 h)
    subst hl
    simp only [chunkAux, List.length_nil]
    exact (Nat.div_eq_of_lt (by omega)).symm
  | succ fuel ih =>
    intro l h
    cases l with
    | nil =>
      simp only [chunkAux, List.length_nil]
      exact (Nat.div_eq_of_lt (by omega)).symm
    | cons x xs =>
      have hfuel : ((x :: xs).drop B).length ≤ fuel := by
        simp only [List.length_drop, List.length_cons] at *
        omega
      simp only [chunkAux, List.length_cons, ih _ hfuel, List.length_drop]
      have hn : 1 ≤ xs.length + 1 := by omega
      rcases Nat.le_total B (xs.length + 1) with hBn | hnB
      · have e1 : xs.length + 1 - B + B - 1 = xs.length := by omega
        have e2 : xs.length + 1 + B - 1 = xs.length + B := by omega
        rw [e1, e2, Nat.add_div_right _ hB]
      · have e1 : xs.length + 1 - B = 0 := by omega
        have e2 : xs.length + 1 + B - 1 = xs.length + B := by omega
        rw [e1, e2, Nat.add_div_right _ hB, Nat.zero_add,
          Nat.div_eq_of_lt (show B - 1 < B by omega),
          Nat.div_eq_of_lt (show xs.length < B by omega)]

/-- Concatenating the batches restores the input list in order: partitioning
loses nothing and preserves input order. -/
theorem chunkAux_join {α : Type} (B : Nat) (hB : 0 < B) :
    ∀ (fuel : Nat) (l : List α), l.length ≤ fuel → (chunkAux B fuel l).flatten = l := by
  intro fuel
  induction fuel with
  | zero =>
    intro l h
    have hl : l = [] := List.length_eq_zero.1 (Nat.le_zero.1 h)
    subst hl
    rfl
  | succ fuel ih =>
    intro l h
    cases l with
    | nil => rfl
    | cons x xs =>
      have hfuel : ((x :: xs).drop B).length ≤ fuel := by
        simp only [List.length_drop, List.length_cons] at *
        omega
      simp only [chunkAux, List.flatten_cons, ih _ hfuel, List.take_append_drop]

/-- The window loop inserts exactly one pacing delay per window except after
the last one: the delay count is the window count minus one. -/
theorem delayCountAux_eq {α : Type} (maxC : Nat) (hC : 0 < maxC) :
    ∀ (fuel : Nat) (l : List α), l.length ≤ fuel →
      delayCountAux maxC fuel l = (chunkAux maxC fuel l).length - 1 := by
  intro fuel
  induction fuel with
  | zero =>
    intro l h
    have hl : l = [] := List.length_eq_zero.1 (Nat.le_zero.1 h)
    subst hl
    rfl
  | succ fuel ih =>
    intro l h
    cases l with
    | nil => rfl
    | cons x xs =>
      have hfuel : ((x :: xs).drop maxC).length ≤ fuel := by
        simp only [List.length_drop, List.length_cons] at *
        omega
      by_cases hlt : maxC < xs.length + 1
      · have hrest : 1 ≤ ((x :: xs).drop maxC).length := by
          simp only [List.length_drop, List.length_cons] at *
          omega
        have hone : 1 ≤ (chunkAux maxC fuel ((x :: xs).drop maxC)).length := by
          rw [chunkAux_length maxC hC fuel _ hfuel]
          exact (Nat.one_le_div_iff hC).2 (by omega)
        simp only [delayCountAux, chunkAux, List.length_cons, if_pos hlt, ih _ hfuel]
        omega
      · have hrest : ((x :: xs).drop maxC) = [] := by
          apply List.drop_of_length_le
          simp only [List.length_cons] at *
          omega
        simp only [delayCountAux, chunkAux, List.length_cons, if_neg hlt, hrest,
          chunkAux_nil, delayCountAux_nil, List.length_nil]

/-- Splitting a count by a predicate and its negation recovers the length. -/
theorem countP_add_countP_not {α : Type} (p : α → Bool) (l : List α) :
    l.countP p + l.countP (fun a => !(p a)) = l.length := by
  induction l with
  | nil => simp
  | cons x xs ih =>
    by_cases h : p x = true <;> simp [List.countP_cons, h] <;> omega

/-- Claim C8: for every operations list and positive batchSize, partitioning
yields exactly the ceiling of N divided by B batches whose concatenation is the
input in order, and the window loop inserts its pacing delay exactly once per
window except after the final one; in particular 23 operations with batchSize
10 and maxConcurrentBatches 3 give 3 batches in a single window with zero
inter-window delay. -/
theorem c8_batch_partitioning (ops : List CsvItem) (B maxC : Nat)
    (hB : 0 < B) (hC : 0 < maxC) :
    (chunk B ops).length = (ops.length + B - 1) / B ∧
    (chunk B ops).flatten = ops ∧
    delayCount maxC (chunk B ops) = (chunk maxC (chunk B ops)).length - 1 ∧
    (ops.length = 23 → B = 10 → maxC = 3 →
      (chunk B ops).length = 3 ∧ delayCount maxC (chunk B ops) = 0) := by
  have hlen : (chunk B ops).length = (ops.length + B - 1) / B :=
    chunkAux_length B hB ops.length ops (Nat.le_refl _)
  refine ⟨hlen, chunkAux_join B hB ops.length ops (Nat.le_refl _), ?_, ?_⟩
  · exact delayCountAux_eq maxC hC (chunk B ops).length (chunk B ops) (Nat.le_refl _)
  · intro h23 hB10 hC3
    subst hB10
    subst hC3
    have h3 : (chunk 10 ops).length = 3 := by
      rw [hlen, h23]
    refine ⟨h3, ?_⟩
    have hw : (chunk 3 (chunk 10 ops)).length = 1 := by
      have hcl : (chunk 3 (chunk 10 ops)).length = ((chunk 10 ops).length + 3 - 1) / 3 :=
        chunkAux_length 3 (by omega) (chunk 10 ops).length (chunk 10 ops) (Nat.le_refl _)
      rw [hcl, h3]
    have hd : delayCount 3 (chunk 10 ops) = (chunk 3 (chunk 10 ops)).length - 1 :=
      delayCountAux_eq 3 (by omega) (chunk 10 ops).length (chunk 10 ops) (Nat.le_refl _)
    rw [hd, hw]

/-- Witness for C8 at the concrete scenario of the claim: 23 operations,
batchSize 10, maxConcurrentBatches 3. -/
theorem c8_batch_partitioning_witness :
    (0 < 10 ∧ 0 < 3 ∧ (List.replicate 23 ({} : CsvItem)).length = 23) ∧
    (chunk 10 (List.replicate 23 ({} : CsvItem))).length = 3 ∧
    delayCount 3 (chunk 10 (List.replicate 23 ({} : CsvItem))) = 0 :=
  ⟨⟨by decide, by decide, by decide⟩,
    (c8_batch_partitioning (List.replicate 23 {}) 10 3 (by decide) (by decide)).2.2.2
      (by decide) rfl rfl⟩

/-- Claim C6: inside one batch, every item is mapped to its own settled
outcome independently of its siblings: even when some item at position i
fails, the batch still records one result per item, the result at every
position j is exactly the outcome of that item alone, and the created and
error counters together account for every item of the batch. -/
theorem c6_failure_isolation (co : CsvItem → Except String Product)
    (items : List CsvItem) (i j : Nat) (e : String)
    (hi : i < items.length) (hj : j < items.length)
    (h2 : 2 ≤ items.length) (hfail : co items[i] = Except.error e) :
    (processBatchDirectResults co items).length = items.length ∧
    (processBatchDirectResults co items)[j]? = some (runCreateItem co items[j]) ∧
    (processBatchDirectResults co items).countP (fun r => r.success) +
      (processBatchDirectResults co items).countP (fun r => !r.success) = items.length := by
  refine ⟨by simp [processBatchDirectResults], ?_, ?_⟩
  · simp [processBatchDirectResults, List.getElem?_map, List.getElem?_eq_getElem hj]
  · rw [← List.length_map items (runCreateItem co)]
    exact countP_add_countP_not _ _

/-- Membership in a conditional singleton tag list. -/
theorem mem_tagIf {a s : String} {b : Bool} : a ∈ tagIf b s ↔ b = true ∧ a = s := by
  cases b <;> simp [tagIf]

/-- Splitting is determined by the values of the separator predicate on the
characters of the list. -/
theorem splitChars_congr (p q : Char → Bool) :
    ∀ (l : List Char), (∀ ch ∈ l, p ch = q ch) → splitChars p l = splitChars q l := by
  intro l
  induction l with
  | nil => intro _; rfl
  | cons ch rest ih =>
    intro h
    have hc : p ch = q ch := h ch (by simp)
    have hr : splitChars p rest = splitChars q rest := ih fun a ha => h a (by simp [ha])
    simp only [splitChars, hc, hr]

/-- No backslash survives the backslash-stripping normalization. -/
theorem no_backslash_after_strip (s : String) :
    ∀ ch ∈ (stripBackslashes s).data, (ch == '\\') = false := by
  intro ch hch
  simp only [stripBackslashes, List.mem_filter] at hch
  simpa using hch.2

/-- The skipped counter survives the whole batch fold untouched: no branch of
the result aggregation ever increments it. -/
theorem foldl_addBatchCounts_skipped (co : CsvItem → Except String Product)
    (uo : CsvItem → Product → List String → Except String Product) :
    ∀ (batches : List (List ProcEntry)) (r : RunReport),
      (batches.foldl (fun acc batch => addBatchCounts acc (batch.map (runEntry co uo))) r).skipped
        = r.skipped := by
  intro batches
  induction batches with
  | nil => intro r; rfl
  | cons b bs ih =>
    intro r
    rw [List.foldl_cons, ih]
    rfl

/-- Witness for C6: in the two-item batch where the oracle fails on the first
item, the second item still settles with its own outcome and both counters
together account for the whole batch. -/
theorem c6_failure_isolation_witness :
    (2 ≤ ([cW1, cW2] : List CsvItem).length ∧ coW cW1 = Except.error "boom") ∧
    (processBatchDirectResults coW [cW1, cW2])[1]? = some (runCreateItem coW cW2) ∧
    (processBatchDirectResults coW [cW1, cW2]).countP (fun r => r.success) +
      (processBatchDirectResults coW [cW1, cW2]).countP (fun r => !r.success) = 2 :=
  ⟨⟨by decide, rfl⟩,
    (c6_failure_isolation coW [cW1, cW2] 0 1 "boom" (by decide) (by decide) (by decide) rfl).2.1,
    (c6_failure_isolation coW [cW1, cW2] 0 1 "boom" (by decide) (by decide) (by decide) rfl).2.2⟩

/-- Claim C1 (code bug): the skipped bucket of the run report is never
incremented on any input, and on the concrete failing input — one record that
matches an existing remote product with no field differences — the run report
counts nothing at all, so created, updated, skipped and errored sum to 0 while
1 record reached the reconciliation stage. -/
theorem c1_skipped_bucket_dead :
    (∀ (csvData : List CsvItem) (remotes : List Product) (eu : Bool) (B : Nat)
      (co : CsvItem → Except String Product)
      (uo : CsvItem → Product → List String → Except String Product),
      (runProcess csvData remotes eu B co uo).skipped = 0) ∧
    runProcess [csvC1] [remC1] true 10 coNone uoNone =
      { total := 1, created := 0, updated := 0, skipped := 0, errors := 0 } := by
  constructor
  · intro csvData remotes eu B co uo
    exact foldl_addBatchCounts_skipped co uo _ _
  · decide

/-- Claim C4: whenever the normalized stable identifier of a record hits the
sku index built from the remote set, the lookup returns that sku-matched
product, whatever the title index would have said. -/
theorem c4_sku_priority (remotes : List Product) (c : CsvItem) (it : String) (p : Product)
    (hIt : c.Item = some it) (hne : jsToLower it ≠ "")
    (hget : mapGet (buildIndexes remotes).1 (jsToLower it) = some p) :
    lookupExisting (buildIndexes remotes).1 (buildIndexes remotes).2 c = some p := by
  simp [lookupExisting, hIt, hne, hget]

/-- Witness for C4: the sku of cC4 matches remA while its display name matches
the different product remB, and the lookup still pairs it with remA. -/
theorem c4_sku_priority_witness :
    (cC4.Item = some "A1" ∧ jsToLower "A1" ≠ "" ∧
      mapGet (buildIndexes [remA, remB]).1 (jsToLower "A1") = some remA) ∧
    mapGet (buildIndexes [remA, remB]).2 "prod" = some remB ∧
    remB ≠ remA ∧
    lookupExisting (buildIndexes [remA, remB]).1 (buildIndexes [remA, remB]).2 cC4 = some remA :=
  ⟨⟨rfl, by decide, by decide⟩, by decide, by decide,
    c4_sku_priority [remA, remB] cC4 "A1" remA rfl (by decide) (by decide)⟩

/-- Claim C7: with updates disabled, categorization updates nothing and
creates exactly the unmatched records, so every matched record is neither
created nor updated, whatever its field differences. -/
theorem c7_updates_disabled_skips (csvData : List CsvItem) (sk tt : List (String × Product)) :
    categorizeProducts csvData sk tt false =
      (csvData.filter (fun c => (lookupExisting sk tt c).isNone), []) := by
  induction csvData with
  | nil => rfl
  | cons c rest ih =>
    simp only [categorizeProducts, ih]
    cases h : lookupExisting sk tt c <;> simp [List.filter_cons, h]

/-- Claim C10: a record whose normalized status label is discontinued is
rejected by the eligibility filter whatever its other fields hold. -/
theorem c10_discontinued_rejected (c : CsvItem) (h : statusNorm c = "discontinued") :
    productPasses c = false := by
  simp [productPasses, h]

/-- Witness for C10: a record that passes every other check is still rejected
once its status trims and folds to discontinued. -/
theorem c10_discontinued_rejected_witness :
    statusNorm cC10 = "discontinued" ∧ productPasses cC10 = false :=
  ⟨by decide, c10_discontinued_rejected cC10 (by decide)⟩

/-- Counterexample to C2: the bidirectional check of the claim accepts the
label pearl against the configured line Pearls, but the category-line check
of the code tests containment in one direction only and rejects it. -/
theorem c2_line_check_counterexample :
    lineMatchesSpec productLines1 (normalizeLine (some "Pearl")) = true ∧
    lineMatches productLines1 (normalizeLine (some "Pearl")) = false := by
  constructor <;> decide

/-- Claim C2 as amended: the category-line check succeeds exactly when the
normalized record label equals a case-folded configured line or contains one
as a substring — containment in that single direction only. -/
theorem c2_line_check_amended (lines : List String) (pl : String) :
    lineMatches lines pl = true ↔
      ∃ line, line ∈ lines ∧ (pl = jsToLower line ∨ (jsToLower line).data <:+: pl.data) := by
  simp only [lineMatches, List.any_eq_true, Bool.or_eq_true, beq_iff_eq, hasSub, subSomewhere_iff]

/-- Counterexample to C3: on a backslash-delimited path the code strips the
backslashes before splitting, so the two components collapse into one segment
and the anklets keyword wins by substring search, while the splitting the
claim describes matches the rings leaf segment first. -/
theorem c3_path_split_counterexample :
    findBestCategoryMatch "Anklets\\Rings" = some "gid://shopify/TaxonomyCategory/aa-6-1" ∧
    findBestCategoryMatchSpec "Anklets\\Rings" = some "gid://shopify/TaxonomyCategory/aa-6-9" ∧
    findBestCategoryMatch "Anklets\\Rings" ≠ findBestCategoryMatchSpec "Anklets\\Rings" := by
  refine ⟨by decide, by decide, by decide⟩

/-- Claim C3 as amended: the resolver deletes every backslash during
normalization and therefore effectively splits only on forward slash,
greater-than and pipe; the rest of the pipeline (reversed segment order,
exact match then bidirectional containment, whole-path fallback) is as the
claim states. -/
theorem c3_path_split_amended (p : String) :
    findBestCategoryMatch p = findBestCategoryMatchAmended p := by
  simp only [findBestCategoryMatch, findBestCategoryMatchAmended, resolvePath]
  by_cases hp : p = ""
  · simp [hp]
  · simp only [if_neg hp, if_pos trivial]
    have hsplit : splitStr isSep4 (stripBackslashes (jsToLower (jsTrim p))) =
        splitStr isSep3 (stripBackslashes (jsToLower (jsTrim p))) := by
      unfold splitStr
      congr 1
      apply splitChars_congr
      intro ch hch
      have h0 : (ch == '\\') = false :=
        no_backslash_after_strip (jsToLower (jsTrim p)) ch hch
      simp [isSep4, isSep3, h0]
    rw [hsplit]

/-- Counterexample to C5: with inventory 5 on the feed side and a remote first
variant carrying no inventory value, the comparison the claim describes
(absent side compared as 0) reports a difference, but the code skips the
inventory comparison entirely and reports no changes at all. -/
theorem c5_inventory_default_counterexample :
    specInventoryDiffers cC5 pC5 = true ∧
    csvInventoryVal cC5 = 5 ∧
    remoteInventory pC5 = none ∧
    doesProductNeedUpdate cC5 pC5 = [] := by
  refine ⟨by decide, by decide, by decide, by decide⟩

/-- Claim C5 as amended: the diff calculator is total — absence on the feed
side defaults to zero (inventory parses to 0) — but a missing remote-side
inventory or price causes that comparison to be skipped, never compared as 0:
the inventory tag appears exactly when the remote first variant carries an
inventory value that differs from the parsed feed inventory. -/
theorem c5_inventory_amended (c : CsvItem) (p : Product) :
    ("inventory" ∈ doesProductNeedUpdate c p ↔
      ∃ q, remoteInventory p = some q ∧ q ≠ csvInventoryVal c) ∧
    (c.Qty_Avail = none → csvInventoryVal c = 0) ∧
    (remotePrice p = none → "price" ∉ doesProductNeedUpdate c p) := by
  refine ⟨?_, ?_, ?_⟩
  · simp only [doesProductNeedUpdate, List.mem_append, mem_tagIf]
    cases h : remoteInventory p with
    | none => simp [h]
    | some q => simp [h]
  · intro h
    simp [csvInventoryVal, jsParseIntOpt, h]
  · intro h
    simp [doesProductNeedUpdate, List.mem_append, mem_tagIf, h]

/-- Claim C9: the two concrete category paths of the repository test both
resolve to the necklaces category identifier, and the record carrying both
paths maps to that same identifier. -/
theorem c9_chain_paths_same_category :
    findBestCategoryMatch "\\Jewelry\\Necklaces\\Chain Necklaces\\Rope Chain Necklaces" =
      some "gid://shopify/TaxonomyCategory/aa-6-8" ∧
    findBestCategoryMatch "\\Jewelry\\Chains\\Rope Chains\\Rope Chain" =
      some "gid://shopify/TaxonomyCategory/aa-6-8" ∧
    getCategoryId cC9 = "gid://shopify/TaxonomyCategory/aa-6-8" := by
  refine ⟨by decide, by decide, by decide⟩

end QGold
